import Mathlib

/-!
Verification of the claude-bench-autotrace trace-correlation engine.

This file gives a shallow embedding, in Lean 4, of the pure core of the
repository: the episode state machine, the tool timing correlator, the
subagent registry, the transcript parent resolver and the chat merge engine
(files `cc_tracer_lib/state.py`, `cc_tracer_lib/transcript.py`,
`cc_tracer_lib/models.py` and the orchestrator `cc_tracer.py`).

Modelling conventions:
- Python `str` is `String` (character-level operations are taken on `.data`,
  the underlying `List Char`);
- Python `dict[str, V]` is an association list `List (String × V)` with
  unique keys, maintained by `insertKey` / `eraseKey` and read by
  `lookupKey`;
- nanosecond / second clock readings (`time.time_ns()`,
  `datetime.now().timestamp()`) are explicit `Int` parameters of each
  handler, one per call site where the distinction matters;
- `uuid4()` results are explicit fresh-identifier parameters (`Nat` for span
  identifiers, `String` for prompt metadata identifiers);
- filesystem reads of transcripts are an explicit environment: the decoded
  record list of the main transcript and, per subagent identifier, of that
  subagent's transcript (`none` models an unreadable / missing file);
- emitted OTel spans are values of the `Span` structure collected in a list;
  the exporter itself is out of scope.
-/

namespace CCTracer

/-- Association-list lookup, first match wins (Python `dict` read). -/
def lookupKey {α : Type} : List (String × α) → String → Option α
  | [], _ => none
  | (k, v) :: rest, q => if k = q then some v else lookupKey rest q

/-- Removal of a key (Python `dict.pop`). -/
def eraseKey {α : Type} : List (String × α) → String → List (String × α)
  | [], _ => []
  | (k, v) :: rest, q => if k = q then eraseKey rest q else (k, v) :: eraseKey rest q

/-- Key assignment (Python `d[k] = v`). -/
def insertKey {α : Type} (m : List (String × α)) (k : String) (v : α) :
    List (String × α) :=
  (k, v) :: eraseKey m k

/-- Embeds `truncate` from `cc_tracer_lib/transcript.py`: when the value is
longer than `max_length`, keep the first `max_length - 15` characters and
append the literal suffix. -/
def truncate (value : String) (max_length : Nat) : String :=
  if value.length > max_length then
    String.mk (value.data.take (max_length - 15) ++ "...[truncated]".data)
  else value

/-- Role of a chat message (`MessageRole` in `cc_tracer_lib/models.py`). -/
inductive MessageRole where
  | system
  | user
  | assistant
  | info
  | infeasible
deriving DecidableEq

/-- Chat history entry (`ChatMessage` in `cc_tracer_lib/models.py`); the
floating-point second timestamp is modelled as an integer. -/
structure ChatMessage where
  role : MessageRole
  message : String
  timestamp : Int
deriving DecidableEq

/-- Active-episode record (`EpisodeState` in `cc_tracer_lib/models.py`);
UUID span identifiers are modelled as naturals. -/
structure EpisodeState where
  span_id : Nat
  start_ns : Int
  prompt_text : Option String := none
  prompt_received_ns : Option Int := none
  prompt_metadata_id : Option String := none
deriving DecidableEq

/-- Tagged parent of a step (`AgentParent` / `ToolParent` /  `StepParent` in
`cc_tracer_lib/models.py`). -/
inductive StepParent where
  | agentParent (agent_id : String)
  | toolParent (tool_use_id : String)
deriving DecidableEq

/-- Cached parent relationships mined from a transcript (`TranscriptState`
in `cc_tracer_lib/models.py`). -/
structure TranscriptState where
  agent_parents : List (String × StepParent)
  tool_parents : List (String × StepParent)
deriving DecidableEq

/-- Registered in-flight subagent (`SubagentState` in
`cc_tracer_lib/models.py`); the transcript path derivation is part of the
transcript environment instead. -/
structure SubagentState where
  agent_id : String
  start_time_ns : Int
  agent_type : String
  span_id : Nat
  parent_span_id : Option Nat
  transcript_state : TranscriptState
deriving DecidableEq

/-- Per-session persisted state (`SessionState` in
`cc_tracer_lib/models.py`). -/
structure SessionState where
  trace_id : Nat
  session_start_time : Int
  chat_history : List ChatMessage := []
  episode : Option EpisodeState := none
  pending_tools_start_time : List (String × Int) := []
  subagents : List (String × SubagentState) := []
  transcript_state : TranscriptState
deriving DecidableEq

/-- Assistant content block (`ContentBlock` in `cc_tracer_lib/models.py`),
restricted to the fields the correlator reads. -/
structure ContentBlock where
  type : String
  id : Option String := none
  thinking : Option String := none
  text : Option String := none
deriving DecidableEq

/-- Assistant message payload (`AssistantMessage` in
`cc_tracer_lib/models.py`), restricted to the content list the correlator
reads. -/
structure AssistantMessage where
  content : List ContentBlock
deriving DecidableEq

/-- Message payload of a transcript entry: either a decoded
`AssistantMessage` or some other shape (dict / string in the source). -/
inductive EntryMessage where
  | assistantMsg (m : AssistantMessage)
  | otherMsg
deriving DecidableEq

/-- Heterogeneous transcript record (`TranscriptEntry` in
`cc_tracer_lib/models.py`), restricted to the fields the correlator reads;
`data` models the decoded JSON object of the `data` field, keeping only its
string-valued entries (the scan reads only `data.get("agentId")`). -/
structure TranscriptEntry where
  type : String
  data : Option (List (String × String)) := none
  parentToolUseID : Option String := none
  timestamp : Option Int := none
  message : Option EntryMessage := none
  agentId : Option String := none
deriving DecidableEq

/-- Transcript environment: the decoded main transcript and, per subagent
identifier, the decoded subagent transcript (paths are derived
deterministically from the main path in the source, so the environment is
keyed directly by the subagent identifier). `none` models an unreadable
file (`_load_transcript` returning `None`). -/
structure TranscriptEnv where
  main : Option (List TranscriptEntry)
  sub : String → Option (List TranscriptEntry)

/-- Attribute constant `TYPE_EPISODE` from `cc_tracer_lib/models.py`. -/
def TYPE_EPISODE : String := "episode"

/-- Attribute constant `TYPE_STEP` from `cc_tracer_lib/models.py`. -/
def TYPE_STEP : String := "step"

/-- Finished span descriptor handed to `send_span`: the name, the
`al2.type` and `al2.name` attributes, the timestamps, the trace identifier
and the parent / explicit span identifiers of the emitted span. -/
structure Span where
  name : String
  al2_type : String
  al2_name : String
  trace_id : Nat
  start_time_ns : Int
  end_time_ns : Int
  parent_span_id : Option Nat
  explicit_span_id : Option Nat
deriving DecidableEq

/-- Processes the progress-entry branch of the single-pass scan in
`update_transcript` (`cc_tracer_lib/transcript.py`): a `progress` record
carrying a parent tool-use identifier and a `data.agentId` caches
`agent_parents[agent_id] = ToolParent(parent_tool_id)` unless the agent is
already cached. -/
def updateTranscriptProgress (state : TranscriptState) (entry : TranscriptEntry) :
    TranscriptState :=
  match entry.parentToolUseID, entry.data with
  | some parent_tool_id, some d =>
    if d = [] then state
    else
      match lookupKey d "agentId" with
      | some agent_id =>
        if lookupKey state.agent_parents agent_id = none then
          { state with
            agent_parents := (agent_id, StepParent.toolParent parent_tool_id)
              :: state.agent_parents }
        else state
      | none => state
  | _, _ => state

/-- Processes one content block of an assistant entry in
`update_transcript`: a `tool_use` block with a non-empty identifier caches
`tool_parents[block_id] = AgentParent(agent_id)` unless the tool is already
cached. -/
def updateTranscriptBlock (agent_id : String) (state : TranscriptState)
    (content : ContentBlock) : TranscriptState :=
  if content.type = "tool_use" then
    match content.id with
    | some block_id =>
      if block_id = "" then state
      else if lookupKey state.tool_parents block_id = none then
        { state with
          tool_parents := (block_id, StepParent.agentParent agent_id)
            :: state.tool_parents }
      else state
    | none => state
  else state

/-- Processes one transcript record of the single-pass scan in
`update_transcript`. -/
def updateTranscriptEntry (state : TranscriptState) (entry : TranscriptEntry) :
    TranscriptState :=
  if entry.type = "progress" then
    updateTranscriptProgress state entry
  else if entry.type = "assistant" then
    match entry.message with
    | some (EntryMessage.assistantMsg m) =>
      match entry.agentId with
      | some agent_id => m.content.foldl (updateTranscriptBlock agent_id) state
      | none => state
    | _ => state
  else state

/-- Embeds the single-pass cache population of `update_transcript`
(`cc_tracer_lib/transcript.py`), given the already-decoded record list of a
transcript file. -/
def update_transcript (state : TranscriptState) (entries : List TranscriptEntry) :
    TranscriptState :=
  entries.foldl updateTranscriptEntry state

/-- Embeds `search_tool_parent_in_transcript`
(`cc_tracer_lib/transcript.py`): check the cache, otherwise scan the
transcript (a `none` transcript models an unreadable file and leaves the
cache untouched), then read the cache again. Returns the possibly grown
cache together with the answer. -/
def search_tool_parent_in_transcript (entries : Option (List TranscriptEntry))
    (state : TranscriptState) (tool_use_id : String) :
    TranscriptState × Option StepParent :=
  match lookupKey state.tool_parents tool_use_id with
  | some p => (state, some p)
  | none =>
    let state' :=
      match entries with
      | none => state
      | some es => update_transcript state es
    (state', lookupKey state'.tool_parents tool_use_id)

/-- Embeds `search_tool_parent_in_subagent_transcript`
(`cc_tracer_lib/transcript.py`): identical cache-then-scan logic applied to
one subagent's own transcript and private cache. -/
def search_tool_parent_in_subagent_transcript
    (entries : Option (List TranscriptEntry)) (agent_state : TranscriptState)
    (tool_use_id : String) : TranscriptState × Option StepParent :=
  match lookupKey agent_state.tool_parents tool_use_id with
  | some p => (agent_state, some p)
  | none =>
    let agent_state' :=
      match entries with
      | none => agent_state
      | some es => update_transcript agent_state es
    (agent_state', lookupKey agent_state'.tool_parents tool_use_id)

/-- Assistant content block paired with the envelope timestamp of its
transcript record (`_AssistantBlock` in `cc_tracer_lib/transcript.py`). -/
structure AssistantBlock where
  message : ContentBlock
  timestamp : Int
deriving DecidableEq

/-- Blocks contributed by one transcript record in
`_iter_assistant_blocks`: assistant records with a decoded
`AssistantMessage` contribute all their content blocks tagged with the
envelope timestamp; records missing the timestamp are skipped. -/
def assistantBlocksOfEntry (entry : TranscriptEntry) : List AssistantBlock :=
  if entry.type = "assistant" then
    match entry.message with
    | some (EntryMessage.assistantMsg m) =>
      match entry.timestamp with
      | none => []
      | some ts => m.content.map (fun c => { message := c, timestamp := ts })
    | _ => []
  else []

/-- Embeds `_iter_assistant_blocks` (`cc_tracer_lib/transcript.py`). -/
def iter_assistant_blocks (entries : Option (List TranscriptEntry)) :
    Option (List AssistantBlock) :=
  match entries with
  | none => none
  | some es => some (es.flatMap assistantBlocksOfEntry)

/-- Embeds `extract_chat_from_transcript` (`cc_tracer_lib/transcript.py`):
collect the text blocks of assistant records as assistant chat messages; an
unreadable transcript or an empty block list yields `none` (the Python
`if not blocks` check). -/
def extract_chat_from_transcript (entries : Option (List TranscriptEntry)) :
    Option (List ChatMessage) :=
  match iter_assistant_blocks entries with
  | none => none
  | some blocks =>
    if blocks = [] then none
    else
      some (blocks.filterMap (fun b =>
        if b.message.type = "text" then
          match b.message.text with
          | none => none
          | some t =>
            some { role := MessageRole.assistant, message := t,
                   timestamp := b.timestamp }
        else none))

/-- Dedup identity key of a chat message: the (text, timestamp) pair. -/
def assistantKey (m : ChatMessage) : String × Int :=
  (m.message, m.timestamp)

/-- Identity keys of the assistant-role messages already present in a
history (the `seen` set of `check_new_assistant_messages` in
`cc_tracer_lib/models.py`). -/
def seenOf (history : List ChatMessage) : List (String × Int) :=
  (history.filter (fun m => decide (m.role = MessageRole.assistant))).map assistantKey

/-- Loop body of `check_new_assistant_messages`: reject non-assistant
messages loudly (`ValueError` in the source, `Except.error` here), skip
messages whose identity key is already seen, and otherwise record the key
and keep the message. -/
def checkNewLoop (seen : List (String × Int)) :
    List ChatMessage → Except String (List ChatMessage)
  | [] => Except.ok []
  | m :: rest =>
    if m.role = MessageRole.assistant then
      if assistantKey m ∈ seen then checkNewLoop seen rest
      else
        match checkNewLoop (assistantKey m :: seen) rest with
        | Except.ok new => Except.ok (m :: new)
        | Except.error e => Except.error e
    else Except.error "merge_new_assistant_messages called with message role"

/-- Boolean timestamp order used to mirror Python ordering of chat
messages. -/
def chatLE (a b : ChatMessage) : Bool :=
  a.timestamp ≤ b.timestamp

/-- Embeds `SessionState.check_new_assistant_messages`
(`cc_tracer_lib/models.py`): filter the incoming messages against the
already-known assistant identities, dedupe them among themselves, and sort
the survivors by timestamp (Python `list.sort` is a stable merge sort). -/
def check_new_assistant_messages (history chat : List ChatMessage) :
    Except String (List ChatMessage) :=
  match checkNewLoop (seenOf history) chat with
  | Except.ok new => Except.ok (new.mergeSort chatLE)
  | Except.error e => Except.error e

/-- Embeds `SessionState.add_new_assistant_messages`
(`cc_tracer_lib/models.py`): the two-pointer merge of the sorted history
with the sorted new messages, taking the old message on ties exactly as the
source loop does. `List.merge` has precisely the source's recursion. -/
def add_new_assistant_messages (history new : List ChatMessage) :
    List ChatMessage :=
  history.merge new chatLE

/-- Composition of extraction, deduplication and merge as performed on the
chat history by `_check_transcript_for_new_chats`
(`cc_tracer_lib/state.py`): an unreadable or empty transcript leaves the
history unchanged, and the contract-violation branch of
`check_new_assistant_messages` aborts the event, also leaving the persisted
history unchanged. -/
def chatMergePipeline (history : List ChatMessage)
    (entries : Option (List TranscriptEntry)) : List ChatMessage :=
  match extract_chat_from_transcript entries with
  | none => history
  | some chat =>
    match check_new_assistant_messages history chat with
    | Except.error _ => history
    | Except.ok new => add_new_assistant_messages history new

/-- Hook event payload (`HookEvent` in `cc_tracer_lib/models.py`),
restricted to the correlation fields the two tool handlers read; the
transcript path is part of the transcript environment instead. -/
structure HookEvent where
  tool_use_id : Option String := none
  tool_name : Option String := none
deriving DecidableEq

/-- Renders an optional string the way a Python f-string renders it: the
value itself, or the literal `None`. -/
def optStr : Option String → String
  | some s => s
  | none => "None"

/-- Embeds `SessionStateManager.start_episode` (`cc_tracer_lib/state.py`):
install a fresh episode; fresh UUIDs and clock readings are explicit
parameters. -/
def start_episode (s : SessionState) (prompt : String) (fresh_span : Nat)
    (fresh_meta : String) (now : Int) : SessionState :=
  { s with
    episode := some
      { span_id := fresh_span
        start_ns := now
        prompt_metadata_id := some fresh_meta
        prompt_received_ns := some now
        prompt_text := some prompt } }

/-- Embeds `SessionStateManager.add_chat_message`
(`cc_tracer_lib/state.py`): append to the history, or do nothing when no
episode is active. -/
def add_chat_message (s : SessionState) (chat_msg : String) (role : MessageRole)
    (now : Int) : SessionState :=
  match s.episode with
  | none => s
  | some _ =>
    { s with
      chat_history := s.chat_history ++
        [{ message := chat_msg, role := role, timestamp := now }] }

/-- Embeds `SessionStateManager.update_prompt` (`cc_tracer_lib/state.py`):
replace the prompt text, its metadata identifier and its receive time,
leaving the rest of the episode untouched; do nothing when no episode is
active. -/
def update_prompt (s : SessionState) (prompt : String) (fresh_meta : String)
    (now : Int) : SessionState :=
  match s.episode with
  | none => s
  | some ep =>
    { s with
      episode := some
        { ep with
          prompt_text := some prompt
          prompt_metadata_id := some fresh_meta
          prompt_received_ns := some now } }

/-- Chat span as built in `_check_transcript_for_new_chats`
(`cc_tracer_lib/state.py`): name `claude_code.chat`, step type, start ten
nanoseconds before the current clock reading, parented to the active
episode. -/
def mkChatSpan (trace_id : Nat) (episode_span : Nat) (now : Int) : Span :=
  { name := "claude_code.chat"
    al2_type := TYPE_STEP
    al2_name := "chat"
    trace_id := trace_id
    start_time_ns := now - 10
    end_time_ns := now
    parent_span_id := some episode_span
    explicit_span_id := none }

/-- Embeds `SessionStateManager._check_transcript_for_new_chats`
(`cc_tracer_lib/state.py`): extract the transcript chat, compute the new
assistant messages, emit one chat span per new message when an episode is
active, and merge the new messages into the history. -/
def check_transcript_for_new_chats (s : SessionState) (env : TranscriptEnv)
    (now : Int) : SessionState × List Span :=
  match extract_chat_from_transcript env.main with
  | none => (s, [])
  | some transcript_chat =>
    match check_new_assistant_messages s.chat_history transcript_chat with
    | Except.error _ => (s, [])
    | Except.ok new =>
      let spans :=
        match s.episode with
        | some ep =>
          if new.length > 0 then
            new.map (fun _ => mkChatSpan s.trace_id ep.span_id now)
          else []
        | none => []
      ({ s with chat_history := add_new_assistant_messages s.chat_history new },
       spans)

/-- Embeds `SessionStateManager.handle_notification`
(`cc_tracer_lib/state.py`): without an active episode only a warning is
logged; otherwise the transcript is checked for new chat messages. -/
def handle_notification (s : SessionState) (env : TranscriptEnv) (now : Int) :
    SessionState × List Span :=
  match s.episode with
  | none => (s, [])
  | some _ => check_transcript_for_new_chats s env now

/-- Embeds `SessionStateManager.handle_stop` (`cc_tracer_lib/state.py`):
check the transcript for new chats, then end the episode, emitting one
terminal turn span named by the truncated prompt (newlines replaced by
spaces) or the literal `turn`. -/
def handle_stop (s : SessionState) (env : TranscriptEnv) (now : Int) :
    SessionState × List Span :=
  let checked := check_transcript_for_new_chats s env now
  let s1 := checked.1
  match s1.episode with
  | none => (s1, checked.2)
  | some episode_data =>
    let task_name :=
      match episode_data.prompt_text with
      | some p =>
        String.mk ((truncate p 50).data.map (fun c => if c = '\n' then ' ' else c))
      | none => "turn"
    let sp : Span :=
      { name := "claude_code.turn"
        al2_type := TYPE_EPISODE
        al2_name := task_name
        trace_id := s1.trace_id
        start_time_ns := episode_data.start_ns
        end_time_ns := now
        parent_span_id := none
        explicit_span_id := some episode_data.span_id }
    ({ s1 with episode := none }, checked.2 ++ [sp])

/-- Embeds `SessionStateManager.handle_subagent_start`
(`cc_tracer_lib/state.py`): a duplicate start is ignored; otherwise the
subagent is registered with a fresh span identifier, the current time and
the active episode's span as parent (or none). -/
def handle_subagent_start (s : SessionState) (agent_id : String)
    (agent_type : String) (fresh_span : Nat) (now : Int) : SessionState :=
  if (lookupKey s.subagents agent_id).isSome then s
  else
    let parent_span :=
      match s.episode with
      | some ep => some ep.span_id
      | none => none
    { s with
      subagents := insertKey s.subagents agent_id
        { agent_id := agent_id
          span_id := fresh_span
          agent_type := agent_type
          start_time_ns := now
          parent_span_id := parent_span
          transcript_state := { agent_parents := [], tool_parents := [] } } }

/-- Embeds `SessionStateManager.handle_subagent_stop`
(`cc_tracer_lib/state.py`): a stop for an unknown subagent is ignored;
otherwise the registration is popped and one finished span named by the
subagent type, covering the registered interval and parented to the
recorded parent, is emitted. -/
def handle_subagent_stop (s : SessionState) (agent_id : String) (now : Int) :
    SessionState × List Span :=
  match lookupKey s.subagents agent_id with
  | none => (s, [])
  | some agent =>
    let s1 := { s with subagents := eraseKey s.subagents agent_id }
    (s1,
     [{ name := "claude_code.subagent." ++ agent.agent_type
        al2_type := TYPE_STEP
        al2_name := "subagent." ++ agent.agent_type
        trace_id := s.trace_id
        start_time_ns := agent.start_time_ns
        end_time_ns := now
        parent_span_id := agent.parent_span_id
        explicit_span_id := some agent.span_id }])

/-- Embeds `SessionStateManager.handle_tool_selected`
(`cc_tracer_lib/state.py`): record the current time under the tool-use
identifier, else the tool name, else the literal `unknown`. -/
def handle_tool_selected (s : SessionState) (event : HookEvent) (now : Int) :
    SessionState :=
  let tool_use_id :=
    match event.tool_use_id with
    | some tid => tid
    | none =>
      match event.tool_name with
      | some name => name
      | none => "unknown"
  { s with
    pending_tools_start_time :=
      insertKey s.pending_tools_start_time tool_use_id now }

/-- First subagent cache holding the queried tool (the fast-path loop of
`_guess_parent_agent_for_tool` in `cc_tracer_lib/state.py`). -/
def findCachedInSubagents (subagents : List (String × SubagentState))
    (tool_use_id : String) : Option StepParent :=
  match subagents with
  | [] => none
  | (_, sub) :: rest =>
    match lookupKey sub.transcript_state.tool_parents tool_use_id with
    | some p => some p
    | none => findCachedInSubagents rest tool_use_id

/-- Scan loop over the known subagents' own transcripts (step 4 of
`_guess_parent_agent_for_tool`): each subagent's private cache is grown by
its scan even on a miss, and the loop stops at the first hit. -/
def scanSubagentsForTool (env : TranscriptEnv) (tool_use_id : String) :
    List (String × SubagentState) →
    List (String × SubagentState) × Option StepParent
  | [] => ([], none)
  | (aid, sub) :: rest =>
    let scanned :=
      search_tool_parent_in_subagent_transcript (env.sub aid)
        sub.transcript_state tool_use_id
    let sub' := { sub with transcript_state := scanned.1 }
    match scanned.2 with
    | some p => ((aid, sub') :: rest, some p)
    | none =>
      let tail := scanSubagentsForTool env tool_use_id rest
      ((aid, sub') :: tail.1, tail.2)

/-- Embeds `SessionStateManager._guess_parent_agent_for_tool`
(`cc_tracer_lib/state.py`): main cache, then subagent caches, then a main
transcript scan, then subagent transcript scans; all cache growth is kept
in the returned state, and a total miss returns `none`. -/
def guess_parent_agent_for_tool (s : SessionState) (env : TranscriptEnv)
    (tool_use_id : String) : SessionState × Option StepParent :=
  match lookupKey s.transcript_state.tool_parents tool_use_id with
  | some p => (s, some p)
  | none =>
    match findCachedInSubagents s.subagents tool_use_id with
    | some p => (s, some p)
    | none =>
      let scanned :=
        search_tool_parent_in_transcript env.main s.transcript_state tool_use_id
      let s1 := { s with transcript_state := scanned.1 }
      match scanned.2 with
      | some p => (s1, some p)
      | none =>
        let subScan := scanSubagentsForTool env tool_use_id s1.subagents
        ({ s1 with subagents := subScan.1 }, subScan.2)

/-- Embeds `SessionStateManager.handle_tool_use`
(`cc_tracer_lib/state.py`): an event without a tool-use identifier is
dropped; otherwise the pending start time is popped (falling back to the
completion-time clock reading `t_fallback`), the parent is the transcript
guess when it names a known subagent and the active episode (or nothing)
otherwise, and exactly one tool span is emitted ending at `t_end`. -/
def handle_tool_use (s : SessionState) (env : TranscriptEnv) (event : HookEvent)
    (t_fallback t_end : Int) : SessionState × List Span :=
  match event.tool_use_id with
  | none => (s, [])
  | some tool_use_id =>
    let popped := lookupKey s.pending_tools_start_time tool_use_id
    let s1 :=
      { s with
        pending_tools_start_time :=
          eraseKey s.pending_tools_start_time tool_use_id }
    let start_time_ns :=
      match popped with
      | some t => t
      | none => t_fallback
    let end_time_ns := t_end
    let parent0 :=
      match s1.episode with
      | some ep => some ep.span_id
      | none => none
    let guessed := guess_parent_agent_for_tool s1 env tool_use_id
    let s2 := guessed.1
    let parent_span :=
      match guessed.2 with
      | some (StepParent.agentParent agent_id) =>
        match lookupKey s2.subagents agent_id with
        | some sub => some sub.span_id
        | none => parent0
      | some (StepParent.toolParent _) => parent0
      | none => parent0
    (s2,
     [{ name := "claude_code.tool." ++ optStr event.tool_name
        al2_type := TYPE_STEP
        al2_name := "tool." ++ optStr event.tool_name
        trace_id := s.trace_id
        start_time_ns := start_time_ns
        end_time_ns := end_time_ns
        parent_span_id := parent_span
        explicit_span_id := none }])

/-- Embeds `SessionStateManager.handle_session_end`
(`cc_tracer_lib/state.py`): flush a terminal turn via `handle_stop` when an
episode is active, then delete the persisted session record (the Boolean
records that the deletion was reached). -/
def handle_session_end (s : SessionState) (env : TranscriptEnv) (now : Int) :
    SessionState × List Span × Bool :=
  if s.episode.isSome then
    let stopped := handle_stop s env now
    (stopped.1, stopped.2, true)
  else (s, [], true)

/-- Lifecycle event of the orchestrator `process_event` (`cc_tracer.py`),
carrying the fresh identifiers and clock readings its handlers draw. -/
inductive Event where
  | userPromptSubmit (prompt : String) (fresh_span : Nat) (fresh_meta : String)
      (now : Int)
  | preToolUse (ev : HookEvent) (fresh_span : Nat) (fresh_meta : String)
      (now : Int)
  | postToolUse (ev : HookEvent) (fresh_span : Nat) (fresh_meta : String)
      (t_fallback t_end : Int)
  | notificationEvent (fresh_span : Nat) (fresh_meta : String) (now : Int)
  | stopEvent (now : Int)
  | subagentStart (agent_id agent_type : String) (fresh_span : Nat) (now : Int)
  | subagentStop (agent_id : String) (now : Int)
  | sessionEnd (now : Int)

/-- Embeds `process_event` (`cc_tracer.py`): turn-initiating events
bootstrap an episode while idle (with the literal `(resumed session)`
prompt for non-prompt events), then the event is dispatched to its
handler; a prompt arriving while active updates the episode in place. -/
def processEvent (env : TranscriptEnv) (s : SessionState) (e : Event) :
    SessionState × List Span :=
  match e with
  | Event.userPromptSubmit prompt fresh_span fresh_meta now =>
    let episode_was_active := s.episode.isSome
    let s1 :=
      if episode_was_active then s
      else start_episode s prompt fresh_span fresh_meta now
    let s2 := add_chat_message s1 prompt MessageRole.user now
    let s3 :=
      if episode_was_active then update_prompt s2 prompt fresh_meta now else s2
    (s3, [])
  | Event.preToolUse ev fresh_span fresh_meta now =>
    let s1 :=
      if s.episode.isSome then s
      else start_episode s "(resumed session)" fresh_span fresh_meta now
    (handle_tool_selected s1 ev now, [])
  | Event.postToolUse ev fresh_span fresh_meta t_fallback t_end =>
    let s1 :=
      if s.episode.isSome then s
      else start_episode s "(resumed session)" fresh_span fresh_meta t_fallback
    handle_tool_use s1 env ev t_fallback t_end
  | Event.notificationEvent fresh_span fresh_meta now =>
    let s1 :=
      if s.episode.isSome then s
      else start_episode s "(resumed session)" fresh_span fresh_meta now
    handle_notification s1 env now
  | Event.stopEvent now => handle_stop s env now
  | Event.subagentStart agent_id agent_type fresh_span now =>
    (handle_subagent_start s agent_id agent_type fresh_span now, [])
  | Event.subagentStop agent_id now => handle_subagent_stop s agent_id now
  | Event.sessionEnd now =>
    let ended := handle_session_end s env now
    (ended.1, ended.2.1)

/-- State reached after one orchestrated event. -/
def stepState (env : TranscriptEnv) (s : SessionState) (e : Event) :
    SessionState :=
  (processEvent env s e).1

/-- State reached after a sequence of orchestrated events. -/
def processEvents (env : TranscriptEnv) (s : SessionState) :
    List Event → SessionState
  | [] => s
  | e :: es => processEvents env (stepState env s e) es

/-- Empty concrete session state used to evaluate the handlers on closed
inputs. -/
def emptySession : SessionState :=
  { trace_id := 1
    session_start_time := 0
    transcript_state := { agent_parents := [], tool_parents := [] } }

/-- Concrete transcript environment in which every transcript file is
unreadable. -/
def emptyEnv : TranscriptEnv :=
  { main := none, sub := fun _ => none }

/-!
Supporting lemmas, followed by one theorem per claim.
-/

theorem lookupKey_eraseKey_self {α : Type} (m : List (String × α)) (k : String) :
    lookupKey (eraseKey m k) k = none := by
  induction m with
  | nil => rfl
  | cons p rest ih =>
    obtain ⟨k', v⟩ := p
    by_cases h : k' = k
    · simpa [eraseKey, h] using ih
    · simp [eraseKey, lookupKey, h, ih]

theorem lookupKey_eraseKey_ne {α : Type} (m : List (String × α)) {k q : String}
    (h : q ≠ k) : lookupKey (eraseKey m k) q = lookupKey m q := by
  induction m with
  | nil => rfl
  | cons p rest ih =>
    obtain ⟨k', v⟩ := p
    by_cases hk : k' = k
    · subst hk
      have hkq : k' ≠ q := fun hq => h hq.symm
      simp [eraseKey, lookupKey, hkq, ih]
    · by_cases hq : k' = q
      · simp [eraseKey, hk, lookupKey, hq, h]
      · simp [eraseKey, hk, lookupKey, hq, ih]

theorem lookupKey_insertKey_self {α : Type} (m : List (String × α)) (k : String)
    (v : α) : lookupKey (insertKey m k v) k = some v := by
  simp [insertKey, lookupKey]

theorem lookupKey_insertKey_ne {α : Type} (m : List (String × α)) {k q : String}
    (v : α) (h : q ≠ k) : lookupKey (insertKey m k v) q = lookupKey m q := by
  have : k ≠ q := fun hk => h hk.symm
  simp [insertKey, lookupKey, this, lookupKey_eraseKey_ne m h]

/-- C1 counterexample: on a concrete 80-character prompt, `truncate` with
limit 50 yields a string of 49 characters, not 50 as the claim states (the
kept prefix has `50 - 15 = 35` characters and the literal suffix has 14). -/
theorem truncate_80_chars_not_50 :
    (truncate (String.mk (List.replicate 80 'a')) 50).length ≠ 50 := by
  decide

/-- C1 (amended): for every 80-character prompt, `truncate prompt 50`
yields a 49-character string ending in the literal suffix
`...[truncated]`, and every prompt of at most 50 characters is returned
unchanged. -/
theorem truncate_amended (prompt : String) :
    (prompt.length = 80 →
      (truncate prompt 50).length = 49 ∧
      "...[truncated]".data <:+ (truncate prompt 50).data) ∧
    (prompt.length ≤ 50 → truncate prompt 50 = prompt) := by
  constructor
  · intro h80
    have hgt : prompt.length > 50 := by omega
    have hdata : prompt.data.length = 80 := h80
    have hsuf : ("...[truncated]".data).length = 14 := by decide
    constructor
    · simp only [truncate, if_pos hgt]
      show (prompt.data.take (50 - 15) ++ "...[truncated]".data).length = 49
      simp [List.length_take, hdata, hsuf]
    · simp only [truncate, if_pos hgt]
      exact List.suffix_append _ _
  · intro hle
    have : ¬ prompt.length > 50 := by omega
    simp [truncate, this]

/-- C1 witness: the amended theorem evaluated on a concrete 80-character
prompt and on a concrete short prompt. -/
theorem truncate_amended_witness :
    ((String.mk (List.replicate 80 'b')).length = 80 ∧
      (truncate (String.mk (List.replicate 80 'b')) 50).length = 49 ∧
      "...[truncated]".data <:+
        (truncate (String.mk (List.replicate 80 'b')) 50).data) ∧
    (("hi" : String).length ≤ 50 ∧ truncate "hi" 50 = "hi") := by
  refine ⟨⟨by decide, ?_, ?_⟩, ⟨by decide, ?_⟩⟩
  · exact ((truncate_amended (String.mk (List.replicate 80 'b'))).1 (by decide)).1
  · exact ((truncate_amended (String.mk (List.replicate 80 'b'))).1 (by decide)).2
  · exact (truncate_amended "hi").2 (by decide)

theorem lookupKey_cons_preserved {α : Type} {m : List (String × α)}
    {k q : String} {v w : α} (hq : lookupKey m q = some v)
    (hk : lookupKey m k = none) : lookupKey ((k, w) :: m) q = some v := by
  have hne : k ≠ q := by
    intro h
    subst h
    rw [hq] at hk
    cases hk
  simp [lookupKey, hne, hq]

theorem updateTranscriptBlock_agent_eq (agent_id : String)
    (st : TranscriptState) (c : ContentBlock) :
    (updateTranscriptBlock agent_id st c).agent_parents = st.agent_parents := by
  unfold updateTranscriptBlock
  repeat' split
  all_goals rfl

theorem updateTranscriptBlock_tool_preserved (agent_id : String)
    (st : TranscriptState) (c : ContentBlock) {k : String} {v : StepParent}
    (h : lookupKey st.tool_parents k = some v) :
    lookupKey (updateTranscriptBlock agent_id st c).tool_parents k = some v := by
  unfold updateTranscriptBlock
  repeat' split
  all_goals first
    | exact h
    | exact lookupKey_cons_preserved h (by assumption)

theorem updateTranscriptProgress_tool_eq (st : TranscriptState)
    (entry : TranscriptEntry) :
    (updateTranscriptProgress st entry).tool_parents = st.tool_parents := by
  unfold updateTranscriptProgress
  repeat' split
  all_goals rfl

theorem updateTranscriptProgress_agent_preserved (st : TranscriptState)
    (entry : TranscriptEntry) {k : String} {v : StepParent}
    (h : lookupKey st.agent_parents k = some v) :
    lookupKey (updateTranscriptProgress st entry).agent_parents k = some v := by
  unfold updateTranscriptProgress
  repeat' split
  all_goals first
    | exact h
    | exact lookupKey_cons_preserved h (by assumption)

theorem foldl_block_agent_eq (agent_id : String) (cs : List ContentBlock) :
    ∀ st : TranscriptState,
      (cs.foldl (updateTranscriptBlock agent_id) st).agent_parents
        = st.agent_parents := by
  induction cs with
  | nil => intro st; rfl
  | cons c rest ih =>
    intro st
    rw [List.foldl_cons, ih, updateTranscriptBlock_agent_eq]

theorem foldl_block_tool_preserved (agent_id : String) (cs : List ContentBlock) :
    ∀ (st : TranscriptState) (k : String) (v : StepParent),
      lookupKey st.tool_parents k = some v →
      lookupKey ((cs.foldl (updateTranscriptBlock agent_id) st).tool_parents) k
        = some v := by
  induction cs with
  | nil => intro st k v h; exact h
  | cons c rest ih =>
    intro st k v h
    exact ih _ _ _ (updateTranscriptBlock_tool_preserved agent_id st c h)

theorem updateTranscriptEntry_tool_preserved (st : TranscriptState)
    (entry : TranscriptEntry) {k : String} {v : StepParent}
    (h : lookupKey st.tool_parents k = some v) :
    lookupKey (updateTranscriptEntry st entry).tool_parents k = some v := by
  unfold updateTranscriptEntry
  repeat' split
  all_goals first
    | exact h
    | (rw [updateTranscriptProgress_tool_eq]; exact h)
    | exact foldl_block_tool_preserved _ _ _ _ _ h

theorem updateTranscriptEntry_agent_preserved (st : TranscriptState)
    (entry : TranscriptEntry) {k : String} {v : StepParent}
    (h : lookupKey st.agent_parents k = some v) :
    lookupKey (updateTranscriptEntry st entry).agent_parents k = some v := by
  unfold updateTranscriptEntry
  repeat' split
  all_goals first
    | exact h
    | exact updateTranscriptProgress_agent_preserved st entry h
    | (rw [foldl_block_agent_eq]; exact h)

theorem update_transcript_tool_preserved (es : List TranscriptEntry) :
    ∀ (st : TranscriptState) (k : String) (v : StepParent),
      lookupKey st.tool_parents k = some v →
      lookupKey (update_transcript st es).tool_parents k = some v := by
  induction es with
  | nil => intro st k v h; exact h
  | cons e rest ih =>
    intro st k v h
    exact ih _ _ _ (updateTranscriptEntry_tool_preserved st e h)

theorem update_transcript_agent_preserved (es : List TranscriptEntry) :
    ∀ (st : TranscriptState) (k : String) (v : StepParent),
      lookupKey st.agent_parents k = some v →
      lookupKey (update_transcript st es).agent_parents k = some v := by
  induction es with
  | nil => intro st k v h; exact h
  | cons e rest ih =>
    intro st k v h
    exact ih _ _ _ (updateTranscriptEntry_agent_preserved st e h)

/-- C5: insertions of the single-pass transcript scan are first-write-wins
for both the agent-to-parent and tool-to-parent mappings: a key mapped
before the scan, or mapped by an earlier portion of the scan, keeps its
value through every later scanned record. -/
theorem update_transcript_first_write_wins (state : TranscriptState)
    (es1 es2 : List TranscriptEntry) (k : String) (v : StepParent) :
    (lookupKey (update_transcript state es1).tool_parents k = some v →
      lookupKey (update_transcript state (es1 ++ es2)).tool_parents k = some v) ∧
    (lookupKey (update_transcript state es1).agent_parents k = some v →
      lookupKey (update_transcript state (es1 ++ es2)).agent_parents k = some v) := by
  have happ : update_transcript state (es1 ++ es2)
      = update_transcript (update_transcript state es1) es2 := by
    simp [update_transcript, List.foldl_append]
  exact ⟨fun h => happ ▸ update_transcript_tool_preserved es2 _ k v h,
         fun h => happ ▸ update_transcript_agent_preserved es2 _ k v h⟩

theorem processEvents_pending_preserved (env : TranscriptEnv) (k : String)
    (evs : List Event) :
    ∀ st : SessionState,
      (∀ e ∈ evs, ∀ st' : SessionState,
        lookupKey (stepState env st' e).pending_tools_start_time k
          = lookupKey st'.pending_tools_start_time k) →
      lookupKey (processEvents env st evs).pending_tools_start_time k
        = lookupKey st.pending_tools_start_time k := by
  induction evs with
  | nil => intro st _; rfl
  | cons e rest ih =>
    intro st hl
    rw [processEvents, ih _ (fun e' he' st' => hl e' (List.mem_cons_of_mem _ he') st'),
        hl e (List.mem_cons_self _ _)]

/-- C2: when a tool selection records a pending start for a key and a later
completion arrives with that key as its tool-use identifier, with every
event in between leaving the pending entry for that key untouched, the
completed tool span starts at the selection timestamp, whatever the
completion-time clock readings are. -/
theorem tool_span_start_eq_selection_time (s : SessionState)
    (env : TranscriptEnv) (k : String) (sel comp : HookEvent) (t1 : Int)
    (evs : List Event) (t2 t3 : Int)
    (hsel : sel.tool_use_id = some k)
    (hcomp : comp.tool_use_id = some k)
    (hevs : ∀ e ∈ evs, ∀ st : SessionState,
      lookupKey (stepState env st e).pending_tools_start_time k
        = lookupKey st.pending_tools_start_time k) :
    ((handle_tool_use (processEvents env (handle_tool_selected s sel t1) evs)
        env comp t2 t3).2).map Span.start_time_ns = [t1] := by
  have h1 : lookupKey (handle_tool_selected s sel t1).pending_tools_start_time k
      = some t1 := by
    simp [handle_tool_selected, hsel, lookupKey_insertKey_self]
  have h3 := processEvents_pending_preserved env k evs
    (handle_tool_selected s sel t1) hevs
  rw [h1] at h3
  simp [handle_tool_use, hcomp, h3]

/-- C2 witness: a concrete selection at time 100 followed by a completion
at times 500 and 600 yields a span starting at 100. -/
theorem tool_span_start_eq_selection_time_witness :
    ({ tool_use_id := some "tu" } : HookEvent).tool_use_id = some "tu" ∧
    ((handle_tool_use (processEvents emptyEnv
        (handle_tool_selected emptySession { tool_use_id := some "tu" } 100) [])
        emptyEnv { tool_use_id := some "tu" } 500 600).2).map Span.start_time_ns
      = [100] :=
  ⟨rfl,
   tool_span_start_eq_selection_time emptySession emptyEnv "tu"
     { tool_use_id := some "tu" } { tool_use_id := some "tu" } 100 [] 500 600
     rfl rfl (fun e he _ => absurd he (List.not_mem_nil e))⟩

/-- C3: a prompt submitted while an episode is active replaces the
episode's prompt text, receive time and prompt metadata identifier but
keeps the episode's span identifier and start timestamp. -/
theorem prompt_update_keeps_episode_start (s : SessionState)
    (env : TranscriptEnv) (ep : EpisodeState) (h : s.episode = some ep)
    (prompt : String) (fresh_span : Nat) (fresh_meta : String) (now : Int) :
    (stepState env s
        (Event.userPromptSubmit prompt fresh_span fresh_meta now)).episode
      = some { span_id := ep.span_id
               start_ns := ep.start_ns
               prompt_text := some prompt
               prompt_received_ns := some now
               prompt_metadata_id := some fresh_meta } := by
  simp [stepState, processEvent, h, add_chat_message, update_prompt]

/-- C3 witness: an episode started at time 0 with prompt `A` receiving
prompt `B` at time 5 keeps start time 0 and span identifier 9 while the
prompt becomes `B`. -/
theorem prompt_update_keeps_episode_start_witness :
    ({ emptySession with
        episode := some { span_id := 9, start_ns := 0, prompt_text := some "A" } }
      : SessionState).episode
      = some { span_id := 9, start_ns := 0, prompt_text := some "A" } ∧
    (stepState emptyEnv
        { emptySession with
          episode := some { span_id := 9, start_ns := 0, prompt_text := some "A" } }
        (Event.userPromptSubmit "B" 11 "meta2" 5)).episode
      = some { span_id := 9
               start_ns := 0
               prompt_text := some "B"
               prompt_received_ns := some 5
               prompt_metadata_id := some "meta2" } :=
  ⟨rfl,
   prompt_update_keeps_episode_start
     { emptySession with
       episode := some { span_id := 9, start_ns := 0, prompt_text := some "A" } }
     emptyEnv { span_id := 9, start_ns := 0, prompt_text := some "A" } rfl
     "B" 11 "meta2" 5⟩

/-- C5 witness: a concrete scan where a second assistant record and a
second progress record try to re-parent an already-cached tool and agent
and are ignored. -/
theorem update_transcript_first_write_wins_witness :
    (lookupKey
        (update_transcript { agent_parents := [], tool_parents := [] }
          [{ type := "assistant"
             message := some (EntryMessage.assistantMsg
               { content := [{ type := "tool_use", id := some "t1" }] })
             agentId := some "a1" },
           { type := "progress", parentToolUseID := some "t9"
             data := some [("agentId", "a7")] }]).tool_parents "t1"
      = some (StepParent.agentParent "a1")) ∧
    lookupKey
        (update_transcript { agent_parents := [], tool_parents := [] }
          ([{ type := "assistant"
              message := some (EntryMessage.assistantMsg
                { content := [{ type := "tool_use", id := some "t1" }] })
              agentId := some "a1" },
            { type := "progress", parentToolUseID := some "t9"
              data := some [("agentId", "a7")] }] ++
           [{ type := "assistant"
              message := some (EntryMessage.assistantMsg
                { content := [{ type := "tool_use", id := some "t1" }] })
              agentId := some "a2" },
            { type := "progress", parentToolUseID := some "t3"
              data := some [("agentId", "a7")] }])).tool_parents "t1"
      = some (StepParent.agentParent "a1") := by
  refine ⟨by decide, ?_⟩
  exact (update_transcript_first_write_wins
    { agent_parents := [], tool_parents := [] } _ _ "t1"
    (StepParent.agentParent "a1")).1 (by decide)

/-- C8: a tool completion with no matching pending start emits exactly one
span that uses the completion-time clock reading as a degenerate start, so
with a monotone clock its duration is non-negative; the handler is total
and never throws. -/
theorem tool_use_without_pending_start (s : SessionState) (env : TranscriptEnv)
    (event : HookEvent) (tid : String) (t1 t2 : Int)
    (hid : event.tool_use_id = some tid)
    (hmiss : lookupKey s.pending_tools_start_time tid = none)
    (hclock : t1 ≤ t2) :
    ((handle_tool_use s env event t1 t2).2).map
        (fun sp => (sp.start_time_ns, sp.end_time_ns)) = [(t1, t2)] ∧
    ∀ sp ∈ (handle_tool_use s env event t1 t2).2,
      0 ≤ sp.end_time_ns - sp.start_time_ns := by
  constructor
  · simp [handle_tool_use, hid, hmiss]
  · intro sp hsp
    simp [handle_tool_use, hid, hmiss] at hsp
    simp [hsp]
    omega

/-- C8 witness: a completion at clock readings 40 and 41 with no pending
start yields a span covering exactly the interval 40 to 41. -/
theorem tool_use_without_pending_start_witness :
    ({ tool_use_id := some "lost" } : HookEvent).tool_use_id = some "lost" ∧
    lookupKey emptySession.pending_tools_start_time "lost" = none ∧
    ((handle_tool_use emptySession emptyEnv { tool_use_id := some "lost" }
        40 41).2).map (fun sp => (sp.start_time_ns, sp.end_time_ns))
      = [(40, 41)] :=
  ⟨rfl, rfl,
   (tool_use_without_pending_start emptySession emptyEnv
     { tool_use_id := some "lost" } "lost" 40 41 rfl rfl (by omega)).1⟩

/-- C9: a duplicate subagent start leaves the registry unchanged, a stop
for an unknown subagent leaves the state unchanged and emits nothing, and a
stop for a registered subagent removes the registration and emits exactly
one span named by the subagent type, covering the registered start to now
and parented to the recorded parent span. -/
theorem subagent_registry_behaviour (s : SessionState)
    (agent_id agent_type : String) (fresh_span : Nat) (now : Int) :
    ((lookupKey s.subagents agent_id).isSome →
      handle_subagent_start s agent_id agent_type fresh_span now = s) ∧
    (lookupKey s.subagents agent_id = none →
      handle_subagent_stop s agent_id now = (s, [])) ∧
    (∀ agent, lookupKey s.subagents agent_id = some agent →
      lookupKey (handle_subagent_stop s agent_id now).1.subagents agent_id
          = none ∧
      (handle_subagent_stop s agent_id now).2 =
        [{ name := "claude_code.subagent." ++ agent.agent_type
           al2_type := TYPE_STEP
           al2_name := "subagent." ++ agent.agent_type
           trace_id := s.trace_id
           start_time_ns := agent.start_time_ns
           end_time_ns := now
           parent_span_id := agent.parent_span_id
           explicit_span_id := some agent.span_id }]) := by
  refine ⟨?_, ?_, ?_⟩
  · intro hdup
    simp [handle_subagent_start, hdup]
  · intro hunk
    simp [handle_subagent_stop, hunk]
  · intro agent hreg
    refine ⟨?_, ?_⟩
    · simp [handle_subagent_stop, hreg, lookupKey_eraseKey_self]
    · simp [handle_subagent_stop, hreg]

/-- C9 witness: a concrete registry with one subagent evaluated through the
duplicate-start, unknown-stop and registered-stop cases. -/
theorem subagent_registry_behaviour_witness :
    handle_subagent_start
        { emptySession with
          subagents := [("a1",
            { agent_id := "a1", start_time_ns := 10, agent_type := "explore"
              span_id := 4, parent_span_id := some 2
              transcript_state := { agent_parents := [], tool_parents := [] } })] }
        "a1" "other" 99 50
      = { emptySession with
          subagents := [("a1",
            { agent_id := "a1", start_time_ns := 10, agent_type := "explore"
              span_id := 4, parent_span_id := some 2
              transcript_state := { agent_parents := [], tool_parents := [] } })] } ∧
    handle_subagent_stop emptySession "ghost" 50 = (emptySession, []) ∧
    (handle_subagent_stop
        { emptySession with
          subagents := [("a1",
            { agent_id := "a1", start_time_ns := 10, agent_type := "explore"
              span_id := 4, parent_span_id := some 2
              transcript_state := { agent_parents := [], tool_parents := [] } })] }
        "a1" 50).2
      = [{ name := "claude_code.subagent.explore"
           al2_type := TYPE_STEP
           al2_name := "subagent.explore"
           trace_id := 1
           start_time_ns := 10
           end_time_ns := 50
           parent_span_id := some 2
           explicit_span_id := some 4 }] := by
  refine ⟨?_, ?_, ?_⟩
  · exact (subagent_registry_behaviour
      { emptySession with
        subagents := [("a1",
          { agent_id := "a1", start_time_ns := 10, agent_type := "explore"
            span_id := 4, parent_span_id := some 2
            transcript_state := { agent_parents := [], tool_parents := [] } })] }
      "a1" "other" 99 50).1 (by decide)
  · exact (subagent_registry_behaviour emptySession "ghost" "x" 0 50).2.1 (by decide)
  · exact ((subagent_registry_behaviour
      { emptySession with
        subagents := [("a1",
          { agent_id := "a1", start_time_ns := 10, agent_type := "explore"
            span_id := 4, parent_span_id := some 2
            transcript_state := { agent_parents := [], tool_parents := [] } })] }
      "a1" "other" 99 50).2.2
      { agent_id := "a1", start_time_ns := 10, agent_type := "explore"
        span_id := 4, parent_span_id := some 2
        transcript_state := { agent_parents := [], tool_parents := [] } }
      (by decide)).2

theorem guess_pending_eq (s : SessionState) (env : TranscriptEnv)
    (tid : String) :
    (guess_parent_agent_for_tool s env tid).1.pending_tools_start_time
      = s.pending_tools_start_time := by
  unfold guess_parent_agent_for_tool
  split
  · rfl
  split
  · rfl
  dsimp only
  split
  · rfl
  · rfl

/-- C10 counterexample: a pending start recorded under the fallback key
`unknown` (a selection with neither identifier nor name) is popped by a
completion event whose tool-use identifier is the literal string
`unknown`, refuting that fallback-key entries are never popped. -/
theorem fallback_pending_popped :
    lookupKey (handle_tool_selected emptySession {} 5).pending_tools_start_time
        "unknown" = some 5 ∧
    lookupKey ((handle_tool_use (handle_tool_selected emptySession {} 5)
        emptyEnv { tool_use_id := some "unknown", tool_name := some "Bash" }
        7 8).1).pending_tools_start_time "unknown" = none := by
  decide

/-- C10 (amended): a completion event without a tool-use identifier emits
no span and leaves the whole session state unchanged, and a completion pops
at most the pending entry of its own tool-use identifier — every other
pending key, fallback keys included, is left untouched; a fallback-key
entry is therefore popped exactly by a completion whose identifier equals
that key literally. -/
theorem post_tool_use_missing_id_amended (s : SessionState)
    (env : TranscriptEnv) (event : HookEvent) (t1 t2 : Int) :
    (event.tool_use_id = none → handle_tool_use s env event t1 t2 = (s, [])) ∧
    (∀ tid k, event.tool_use_id = some tid → k ≠ tid →
      lookupKey
          (handle_tool_use s env event t1 t2).1.pending_tools_start_time k
        = lookupKey s.pending_tools_start_time k) := by
  constructor
  · intro hnone
    simp [handle_tool_use, hnone]
  · intro tid k hid hne
    simp only [handle_tool_use, hid]
    rw [guess_pending_eq]
    exact lookupKey_eraseKey_ne _ hne

/-- C10 witness: the amended theorem evaluated on a concrete state holding
a fallback-key pending entry, with a completion for an unrelated
identifier. -/
theorem post_tool_use_missing_id_amended_witness :
    handle_tool_use
        { emptySession with pending_tools_start_time := [("unknown", 5)] }
        emptyEnv { tool_name := some "Bash" } 7 8
      = ({ emptySession with pending_tools_start_time := [("unknown", 5)] },
         []) ∧
    lookupKey (handle_tool_use
        { emptySession with pending_tools_start_time := [("unknown", 5)] }
        emptyEnv { tool_use_id := some "tu9" } 7
        8).1.pending_tools_start_time "unknown"
      = lookupKey
          ({ emptySession with
             pending_tools_start_time := [("unknown", 5)] }
            : SessionState).pending_tools_start_time "unknown" :=
  ⟨(post_tool_use_missing_id_amended
      { emptySession with pending_tools_start_time := [("unknown", 5)] }
      emptyEnv { tool_name := some "Bash" } 7 8).1 rfl,
   (post_tool_use_missing_id_amended
      { emptySession with pending_tools_start_time := [("unknown", 5)] }
      emptyEnv { tool_use_id := some "tu9" } 7 8).2 "tu9" "unknown" rfl
     (by decide)⟩

theorem check_transcript_episode_eq (s : SessionState) (env : TranscriptEnv)
    (now : Int) :
    (check_transcript_for_new_chats s env now).1.episode = s.episode := by
  unfold check_transcript_for_new_chats
  repeat' split
  all_goals rfl

theorem check_transcript_spans_step (s : SessionState) (env : TranscriptEnv)
    (now : Int) :
    ∀ sp ∈ (check_transcript_for_new_chats s env now).2,
      sp.al2_type = TYPE_STEP := by
  intro sp hsp
  unfold check_transcript_for_new_chats at hsp
  split at hsp
  · simp at hsp
  · split at hsp
    · simp at hsp
    · dsimp only at hsp
      split at hsp
      · split at hsp
        · rcases List.mem_map.mp hsp with ⟨x, hx, rfl⟩
          rfl
        · simp at hsp
      · simp at hsp

/-- C4: ending the session while an episode is active emits exactly one
terminal turn span (attribute type `episode`), covering the episode start
to now, and reaches the session-record deletion; ending the session while
idle emits zero turn spans and also reaches the deletion. -/
theorem session_end_turn_spans (s : SessionState) (env : TranscriptEnv)
    (now : Int) :
    (handle_session_end s env now).2.2 = true ∧
    (∀ ep, s.episode = some ep →
      (((handle_session_end s env now).2.1.filter
          (fun sp => sp.al2_type == TYPE_EPISODE)).map
          (fun sp => (sp.start_time_ns, sp.end_time_ns)))
        = [(ep.start_ns, now)]) ∧
    (s.episode = none →
      ((handle_session_end s env now).2.1.filter
          (fun sp => sp.al2_type == TYPE_EPISODE)) = []) := by
  refine ⟨?_, ?_, ?_⟩
  · unfold handle_session_end
    split
    · rfl
    · rfl
  · intro ep hep
    have hiso : s.episode.isSome = true := by rw [hep]; rfl
    have heq := check_transcript_episode_eq s env now
    rw [hep] at heq
    have hfil : (check_transcript_for_new_chats s env now).2.filter
        (fun sp => sp.al2_type == TYPE_EPISODE) = [] := by
      rw [List.filter_eq_nil_iff]
      intro a ha
      rw [check_transcript_spans_step s env now a ha]
      decide
    simp only [handle_session_end, hiso, if_true, handle_stop, heq]
    rw [List.filter_append, hfil]
    simp
  · intro hnone
    have : s.episode.isSome = false := by rw [hnone]; rfl
    simp [handle_session_end, this]

/-- C4 witness: the theorem evaluated on a concrete active session (one
turn span from start 3 to 60) and on the concrete idle session (no turn
span). -/
theorem session_end_turn_spans_witness :
    ({ emptySession with episode := some { span_id := 9, start_ns := 3 } }
      : SessionState).episode = some { span_id := 9, start_ns := 3 } ∧
    (((handle_session_end
        { emptySession with episode := some { span_id := 9, start_ns := 3 } }
        emptyEnv 60).2.1.filter (fun sp => sp.al2_type == TYPE_EPISODE)).map
        (fun sp => (sp.start_time_ns, sp.end_time_ns)))
      = [(3, 60)] ∧
    ((handle_session_end emptySession emptyEnv 60).2.1.filter
        (fun sp => sp.al2_type == TYPE_EPISODE)) = [] :=
  ⟨rfl,
   (session_end_turn_spans
     { emptySession with episode := some { span_id := 9, start_ns := 3 } }
     emptyEnv 60).2.1 { span_id := 9, start_ns := 3 } rfl,
   (session_end_turn_spans emptySession emptyEnv 60).2.2 rfl⟩

theorem search_none_cache_none {entries : Option (List TranscriptEntry)}
    {st : TranscriptState} {tid : String}
    (h : (search_tool_parent_in_transcript entries st tid).2 = none) :
    lookupKey st.tool_parents tid = none := by
  unfold search_tool_parent_in_transcript at h
  split at h
  · simp at h
  · assumption

theorem search_sub_none_cache_none {entries : Option (List TranscriptEntry)}
    {st : TranscriptState} {tid : String}
    (h : (search_tool_parent_in_subagent_transcript entries st tid).2 = none) :
    lookupKey st.tool_parents tid = none := by
  unfold search_tool_parent_in_subagent_transcript at h
  split at h
  · simp at h
  · assumption

theorem findCached_none (tid : String) (env : TranscriptEnv) :
    ∀ subs : List (String × SubagentState),
      (∀ p ∈ subs, (search_tool_parent_in_subagent_transcript (env.sub p.1)
        p.2.transcript_state tid).2 = none) →
      findCachedInSubagents subs tid = none := by
  intro subs
  induction subs with
  | nil => intro _; rfl
  | cons p rest ih =>
    intro hl
    obtain ⟨aid, sub⟩ := p
    have hc : lookupKey sub.transcript_state.tool_parents tid = none :=
      search_sub_none_cache_none (hl (aid, sub) (List.mem_cons_self _ _))
    rw [findCachedInSubagents, hc]
    exact ih (fun q hq => hl q (List.mem_cons_of_mem _ hq))

theorem scanSubagents_none (tid : String) (env : TranscriptEnv) :
    ∀ subs : List (String × SubagentState),
      (∀ p ∈ subs, (search_tool_parent_in_subagent_transcript (env.sub p.1)
        p.2.transcript_state tid).2 = none) →
      (scanSubagentsForTool env tid subs).2 = none := by
  intro subs
  induction subs with
  | nil => intro _; rfl
  | cons p rest ih =>
    intro hl
    obtain ⟨aid, sub⟩ := p
    have h0 := hl (aid, sub) (List.mem_cons_self _ _)
    rw [scanSubagentsForTool]
    dsimp only
    rw [h0]
    exact ih (fun q hq => hl q (List.mem_cons_of_mem _ hq))

theorem guess_none (s : SessionState) (env : TranscriptEnv) (tid : String)
    (hmain : (search_tool_parent_in_transcript env.main
      s.transcript_state tid).2 = none)
    (hsubs : ∀ p ∈ s.subagents, (search_tool_parent_in_subagent_transcript
      (env.sub p.1) p.2.transcript_state tid).2 = none) :
    (guess_parent_agent_for_tool s env tid).2 = none := by
  have hcache : lookupKey s.transcript_state.tool_parents tid = none :=
    search_none_cache_none hmain
  have hfind : findCachedInSubagents s.subagents tid = none :=
    findCached_none tid env s.subagents hsubs
  unfold guess_parent_agent_for_tool
  rw [hcache, hfind]
  dsimp only
  rw [hmain]
  exact scanSubagents_none tid env s.subagents hsubs

/-- C6: when neither the caches nor the scans of the main and every known
subagent transcript yield a parent for the tool-use identifier, the
resolver returns no parent (without failing), and the completion handler
parents the emitted tool span to the active episode's span, or to nothing
when idle. -/
theorem unresolved_parent_falls_back (s : SessionState) (env : TranscriptEnv)
    (event : HookEvent) (tid : String) (t1 t2 : Int)
    (hid : event.tool_use_id = some tid)
    (hmain : (search_tool_parent_in_transcript env.main
      s.transcript_state tid).2 = none)
    (hsubs : ∀ p ∈ s.subagents, (search_tool_parent_in_subagent_transcript
      (env.sub p.1) p.2.transcript_state tid).2 = none) :
    (guess_parent_agent_for_tool s env tid).2 = none ∧
    ((handle_tool_use s env event t1 t2).2).map Span.parent_span_id
      = [Option.map EpisodeState.span_id s.episode] := by
  refine ⟨guess_none s env tid hmain hsubs, ?_⟩
  have hg1 : (guess_parent_agent_for_tool
      { s with pending_tools_start_time :=
          eraseKey s.pending_tools_start_time tid } env tid).2 = none :=
    guess_none _ env tid hmain hsubs
  simp only [handle_tool_use, hid]
  rw [hg1]
  cases hsep : s.episode <;> simp [hsep]

/-- C6 witness: in a session with an active episode of span 7 and one
registered subagent, with every transcript unreadable, a completion for an
unresolvable tool parents its span to the episode span. -/
theorem unresolved_parent_falls_back_witness :
    (search_tool_parent_in_transcript emptyEnv.main
        ({ emptySession with
           episode := some { span_id := 7, start_ns := 0 }
           subagents := [("a1",
             { agent_id := "a1", start_time_ns := 10, agent_type := "explore"
               span_id := 4, parent_span_id := some 7
               transcript_state := { agent_parents := [], tool_parents := [] } })] }
          : SessionState).transcript_state "t1").2 = none ∧
    ((handle_tool_use
        { emptySession with
          episode := some { span_id := 7, start_ns := 0 }
          subagents := [("a1",
            { agent_id := "a1", start_time_ns := 10, agent_type := "explore"
              span_id := 4, parent_span_id := some 7
              transcript_state := { agent_parents := [], tool_parents := [] } })] }
        emptyEnv { tool_use_id := some "t1", tool_name := some "Bash" }
        7 8).2).map Span.parent_span_id = [some 7] := by
  refine ⟨by decide, ?_⟩
  have h := (unresolved_parent_falls_back
    { emptySession with
      episode := some { span_id := 7, start_ns := 0 }
      subagents := [("a1",
        { agent_id := "a1", start_time_ns := 10, agent_type := "explore"
          span_id := 4, parent_span_id := some 7
          transcript_state := { agent_parents := [], tool_parents := [] } })] }
    emptyEnv { tool_use_id := some "t1", tool_name := some "Bash" } "t1" 7 8
    rfl (by decide) (by decide)).2
  simpa using h

theorem extract_chat_roles {entries : Option (List TranscriptEntry)}
    {chat : List ChatMessage}
    (h : extract_chat_from_transcript entries = some chat) :
    ∀ m ∈ chat, m.role = MessageRole.assistant := by
  intro m hm
  unfold extract_chat_from_transcript at h
  split at h
  · cases h
  · split at h
    · cases h
    · injection h with h
      subst h
      rcases List.mem_filterMap.mp hm with ⟨b, _, hb⟩
      split at hb
      · split at hb
        · cases hb
        · injection hb with hb
          subst hb
          rfl
      · cases hb

theorem checkNewLoop_spec (chat : List ChatMessage) :
    ∀ seen : List (String × Int),
      (∀ m ∈ chat, m.role = MessageRole.assistant) →
      ∃ new, checkNewLoop seen chat = Except.ok new ∧
        (∀ m ∈ new, m ∈ chat) ∧
        (∀ m ∈ new, assistantKey m ∉ seen) ∧
        (new.map assistantKey).Nodup ∧
        (∀ m ∈ chat, assistantKey m ∈ seen ∨
          ∃ n ∈ new, assistantKey n = assistantKey m) := by
  induction chat with
  | nil =>
    intro seen _
    exact ⟨[], rfl, by simp, by simp, by simp, by simp⟩
  | cons m rest ih =>
    intro seen hroles
    have hm : m.role = MessageRole.assistant := hroles m (List.mem_cons_self m rest)
    have hrest : ∀ x ∈ rest, x.role = MessageRole.assistant :=
      fun x hx => hroles x (List.mem_cons_of_mem _ hx)
    by_cases hseen : assistantKey m ∈ seen
    · obtain ⟨new, hok, hsub, hnot, hnd, hcov⟩ := ih seen hrest
      refine ⟨new, ?_, ?_, hnot, hnd, ?_⟩
      · simp [checkNewLoop, hm, hseen, hok]
      · exact fun x hx => List.mem_cons_of_mem _ (hsub x hx)
      · intro x hx
        rcases List.mem_cons.mp hx with rfl | hx'
        · exact Or.inl hseen
        · rcases hcov x hx' with h | ⟨n, hn, he⟩
          · exact Or.inl h
          · exact Or.inr ⟨n, hn, he⟩
    · obtain ⟨new, hok, hsub, hnot, hnd, hcov⟩ := ih (assistantKey m :: seen) hrest
      refine ⟨m :: new, ?_, ?_, ?_, ?_, ?_⟩
      · simp [checkNewLoop, hm, hseen, hok]
      · intro x hx
        rcases List.mem_cons.mp hx with rfl | hx'
        · exact List.mem_cons_self _ _
        · exact List.mem_cons_of_mem _ (hsub x hx')
      · intro x hx
        rcases List.mem_cons.mp hx with rfl | hx'
        · exact hseen
        · exact fun hc => (hnot x hx') (List.mem_cons_of_mem _ hc)
      · simp only [List.map_cons, List.nodup_cons]
        refine ⟨?_, hnd⟩
        intro hmem
        rcases List.mem_map.mp hmem with ⟨n, hn, he⟩
        exact (hnot n hn) (he ▸ List.mem_cons_self _ _)
      · intro x hx
        rcases List.mem_cons.mp hx with rfl | hx'
        · exact Or.inr ⟨x, List.mem_cons_self _ _, rfl⟩
        · rcases hcov x hx' with h | ⟨n, hn, he⟩
          · rcases List.mem_cons.mp h with he' | h'
            · exact Or.inr ⟨m, List.mem_cons_self _ _, he'.symm⟩
            · exact Or.inl h'
          · exact Or.inr ⟨n, List.mem_cons_of_mem _ hn, he⟩

theorem mem_seenOf {l : List ChatMessage} {p : String × Int} :
    p ∈ seenOf l ↔
      ∃ a ∈ l, a.role = MessageRole.assistant ∧ assistantKey a = p := by
  simp only [seenOf, List.mem_map, List.mem_filter, decide_eq_true_eq]
  constructor
  · rintro ⟨a, ⟨hal, har⟩, hak⟩
    exact ⟨a, hal, har, hak⟩
  · rintro ⟨a, hal, har, hak⟩
    exact ⟨a, ⟨hal, har⟩, hak⟩

theorem seenOf_append (l₁ l₂ : List ChatMessage) :
    seenOf (l₁ ++ l₂) = seenOf l₁ ++ seenOf l₂ := by
  simp [seenOf, List.filter_append, List.map_append]

theorem seenOf_perm {l₁ l₂ : List ChatMessage} (h : l₁.Perm l₂) :
    (seenOf l₁).Perm (seenOf l₂) :=
  (h.filter _).map _

theorem merge_chat_nil (xs : List ChatMessage) : xs.merge [] chatLE = xs := by
  cases xs <;> simp [List.merge]

/-- C7: the extract, deduplicate and merge pipeline over chat history is
idempotent — running it a second time with the same transcript returns the
history unchanged — and it introduces no duplicate (text, timestamp)
assistant identities: a history whose assistant identities are duplicate
free stays duplicate free. -/
theorem chat_merge_idempotent (history : List ChatMessage)
    (entries : Option (List TranscriptEntry)) :
    chatMergePipeline (chatMergePipeline history entries) entries
      = chatMergePipeline history entries ∧
    ((seenOf history).Nodup →
      (seenOf (chatMergePipeline history entries)).Nodup) := by
  cases hx : extract_chat_from_transcript entries with
  | none => simp [chatMergePipeline, hx]
  | some chat =>
    have hroles := extract_chat_roles hx
    obtain ⟨new0, hok, hsub, hnot, hnd, hcov⟩ :=
      checkNewLoop_spec chat (seenOf history) hroles
    have hchk : check_new_assistant_messages history chat
        = Except.ok (new0.mergeSort chatLE) := by
      simp [check_new_assistant_messages, hok]
    have honce : chatMergePipeline history entries
        = history.merge (new0.mergeSort chatLE) chatLE := by
      simp [chatMergePipeline, hx, hchk, add_new_assistant_messages]
    have hpermnew : (new0.mergeSort chatLE).Perm new0 :=
      List.mergeSort_perm new0 chatLE
    have hpermh : (history.merge (new0.mergeSort chatLE) chatLE).Perm
        (history ++ new0.mergeSort chatLE) := List.merge_perm_append chatLE
    have hall : ∀ m ∈ chat,
        assistantKey m ∈ seenOf (history.merge (new0.mergeSort chatLE) chatLE) := by
      intro m hm
      rcases hcov m hm with hseen | ⟨n, hn, he⟩
      · rcases mem_seenOf.mp hseen with ⟨a, ha, har, hak⟩
        exact mem_seenOf.mpr
          ⟨a, hpermh.mem_iff.mpr (List.mem_append_left _ ha), har, hak⟩
      · have hn' : n ∈ new0.mergeSort chatLE := hpermnew.mem_iff.mpr hn
        have hnh : n ∈ history.merge (new0.mergeSort chatLE) chatLE :=
          hpermh.mem_iff.mpr (List.mem_append_right _ hn')
        exact mem_seenOf.mpr ⟨n, hnh, hroles n (hsub n hn), he⟩
    obtain ⟨new2, hok2, hsub2, hnot2, _, _⟩ :=
      checkNewLoop_spec chat
        (seenOf (history.merge (new0.mergeSort chatLE) chatLE)) hroles
    have hnew2 : new2 = [] := by
      cases hcase : new2 with
      | nil => rfl
      | cons a t =>
        exact absurd (hall a (hsub2 a (hcase ▸ List.mem_cons_self a t)))
          (hnot2 a (hcase ▸ List.mem_cons_self a t))
    constructor
    · rw [honce]
      have hchk2 : check_new_assistant_messages
          (history.merge (new0.mergeSort chatLE) chatLE) chat
          = Except.ok [] := by
        simp [check_new_assistant_messages, hok2, hnew2]
      simp [chatMergePipeline, hx, hchk2, add_new_assistant_messages,
        merge_chat_nil]
    · intro hndh
      rw [honce, (seenOf_perm hpermh).nodup_iff, seenOf_append]
      have hnewassist : ∀ n ∈ new0.mergeSort chatLE,
          decide (n.role = MessageRole.assistant) = true := by
        intro n hn
        simp [hroles n (hsub n (hpermnew.mem_iff.mp hn))]
      have hseennew : seenOf (new0.mergeSort chatLE)
          = (new0.mergeSort chatLE).map assistantKey := by
        unfold seenOf
        rw [List.filter_eq_self.mpr hnewassist]
      refine List.Nodup.append hndh ?_ ?_
      · rw [hseennew, (hpermnew.map assistantKey).nodup_iff]
        exact hnd
      · intro p hp hq
        rw [hseennew] at hq
        rcases List.mem_map.mp hq with ⟨n, hn, he⟩
        exact hnot n (hpermnew.mem_iff.mp hn) (he ▸ hp)

/-- C7 witness: the pipeline evaluated on the empty history and a concrete
one-record transcript; the second application leaves the merged single
assistant message unchanged and the assistant identities stay duplicate
free. -/
theorem chat_merge_idempotent_witness :
    chatMergePipeline
        (chatMergePipeline []
          (some [{ type := "assistant"
                   message := some (EntryMessage.assistantMsg
                     { content := [{ type := "text", text := some "hello" }] })
                   timestamp := some 2 }]))
        (some [{ type := "assistant"
                 message := some (EntryMessage.assistantMsg
                   { content := [{ type := "text", text := some "hello" }] })
                 timestamp := some 2 }])
      = chatMergePipeline []
          (some [{ type := "assistant"
                   message := some (EntryMessage.assistantMsg
                     { content := [{ type := "text", text := some "hello" }] })
                   timestamp := some 2 }]) ∧
    (seenOf (chatMergePipeline []
        (some [{ type := "assistant"
                 message := some (EntryMessage.assistantMsg
                   { content := [{ type := "text", text := some "hello" }] })
                 timestamp := some 2 }]))).Nodup :=
  ⟨(chat_merge_idempotent []
      (some [{ type := "assistant"
               message := some (EntryMessage.assistantMsg
                 { content := [{ type := "text", text := some "hello" }] })
               timestamp := some 2 }])).1,
   (chat_merge_idempotent []
      (some [{ type := "assistant"
               message := some (EntryMessage.assistantMsg
                 { content := [{ type := "text", text := some "hello" }] })
               timestamp := some 2 }])).2 (by decide)⟩

end CCTracer
